import Mathlib

/-!
# Album listing page (`assets/js/albums.js`)

A shallow embedding of the album listing script: the catalog loader, the
filter predicate, the sort comparator, the renderer, the HTML escaping helper
and the debounced input controller, followed by theorems about them.

Modelling conventions.

* JavaScript strings are Lean `String`s (sequences of code points).
* JavaScript numbers are rationals: the script only subtracts and compares
  finite numbers, and on finite doubles the sign of `b - a` is the sign of the
  exact difference.
* Functions supplied by the browser whose behaviour depends on Unicode tables
  or on the locale (`toLowerCase`, `trim`, `localeCompare`, number to string
  conversion) are fields of a `Platform` record that every operation takes as
  an argument.  `Platform.reference` is a small executable instance.
* The module variables and the parts of the document the script reads and
  writes are the fields of `Page`.
* An entry of the catalog is `Option Album`: `none` stands for a JSON `null`
  element, on which every property access throws a `TypeError`.
* An operation returns a `Run`: the page it leaves behind and whether it
  completed normally or threw.
-/

namespace Albums

/-! ## Data model -/

/-- One album record of `data/albums.json`. -/
structure Album where
  title : String
  artist : String
  year : Int
  genre : String
  score : ℚ
  note : Option String
deriving DecidableEq

/-- An element of the parsed payload: an album record, or JSON `null`. -/
abbrev Entry := Option Album

/-- Browser supplied string and number primitives. -/
structure Platform where
  /-- The method `String.prototype.toLowerCase`. -/
  toLowerCase : String → String
  /-- The method `String.prototype.trim`. -/
  trim : String → String
  /-- The method `String.prototype.localeCompare`: negative, zero or positive. -/
  localeCompare : String → String → Int
  /-- Conversion of a number to a string inside a template literal. -/
  numberToString : ℚ → String

/-- The module state (`albumsData`, `filteredAlbums`) and the document state
the script reads and writes through `elements`. -/
structure Page where
  /-- The variable `albumsData`. -/
  albumsData : List Entry
  /-- The variable `filteredAlbums`. -/
  filteredAlbums : List Entry
  /-- The value `elements.searchInput.value`. -/
  searchValue : String
  /-- The value `elements.genreFilter.value`. -/
  genreValue : String
  /-- The value `elements.sortSelect?.value`; `none` when the element is absent. -/
  sortValue : Option String
  /-- Values of the options appended to `elements.genreFilter`. -/
  genreOptions : List String
  /-- The style `elements.genreFilter.style.borderColor`. -/
  genreBorderColor : String
  /-- The text `elements.albumsCount.textContent`. -/
  countText : String
  /-- The flag `elements.albumsList.hidden`. -/
  listHidden : Bool
  /-- The flag `elements.albumsEmpty.hidden`. -/
  emptyHidden : Bool
  /-- Markup of the cards appended to `elements.albumsList`, in order. -/
  cards : List String
deriving DecidableEq

/-- How a call ended. -/
inductive Completion where
  | normal
  | thrown
deriving DecidableEq

/-- Result of running an operation: the page afterwards and the completion. -/
structure Run where
  page : Page
  completion : Completion
deriving DecidableEq

/-! ## Built-ins with a fixed meaning -/

/-- The test `s.includes(q)`: `q` occurs in `s` as a contiguous substring. -/
def includes (s q : String) : Bool :=
  decide (q.data <:+: s.data)

/-- Insertion of `a` in front of the first element it does not have to follow
(`cmp a b ≤ 0`), the step of a stable sort. -/
def insertSorted {α : Type} (cmp : α → α → ℚ) (a : α) : List α → List α
  | [] => [a]
  | b :: l => if cmp a b ≤ 0 then a :: b :: l else b :: insertSorted cmp a l

/-- The method `Array.prototype.sort(cmp)`.  ECMAScript requires the sort to be stable, so
for a consistent comparator the result is determined: `b` is moved in front of
an earlier `a` only when `cmp a b > 0`. -/
def arraySort {α : Type} (cmp : α → α → ℚ) : List α → List α
  | [] => []
  | a :: l => insertSorted cmp a (arraySort cmp l)

/-- The default comparator of `Array.prototype.sort()` on strings: the
lexicographic order.  The script compares UTF-16 code units and this model
code points; the two agree on strings without supplementary characters. -/
def defaultCompare (a b : String) : ℚ :=
  if a < b then -1 else if b < a then 1 else 0

/-- The expression `[...new Set(xs)]`: the distinct values in order of first occurrence. -/
def newSet {α : Type} [DecidableEq α] : List α → List α
  | [] => []
  | x :: xs => x :: (newSet xs).filter (fun y => decide (y ≠ x))

/-- All entries as album records, unless one of them is `null`. -/
def allAlbums : List Entry → Option (List Album)
  | [] => some []
  | none :: _ => none
  | some a :: l => (allAlbums l).map (fun as => a :: as)

/-! ## `escapeHtml` -/

/-- The no-break space U+00A0. -/
def nbsp : Char := Char.ofNat 160

/-- Serialisation of one character of a text node (the HTML fragment
serialisation algorithm, outside attribute mode). -/
def escapeChar (c : Char) : List Char :=
  if c = '&' then ['&', 'a', 'm', 'p', ';']
  else if c = '<' then ['&', 'l', 't', ';']
  else if c = '>' then ['&', 'g', 't', ';']
  else if c = nbsp then ['&', 'n', 'b', 's', 'p', ';']
  else [c]

/-- The function `escapeHtml(text)`: the text becomes the only text node of a fresh `div`
and the `innerHTML` of that `div` is returned. -/
def escapeHtml (text : String) : String :=
  ⟨(text.data.map escapeChar).flatten⟩

/-- Decoding of the character references that `escapeHtml` produces, as done
by an HTML parser reading text content; `skip` characters are still to be
dropped because they belong to a reference already decoded. -/
def decodeChars : Nat → List Char → List Char
  | _, [] => []
  | skip + 1, _ :: r => decodeChars skip r
  | 0, c :: r =>
    if c = '&' then
      if ['a', 'm', 'p', ';'] <+: r then '&' :: decodeChars 4 r
      else if ['l', 't', ';'] <+: r then '<' :: decodeChars 3 r
      else if ['g', 't', ';'] <+: r then '>' :: decodeChars 3 r
      else if ['n', 'b', 's', 'p', ';'] <+: r then nbsp :: decodeChars 5 r
      else c :: decodeChars 0 r
    else c :: decodeChars 0 r

/-- Text obtained by parsing `markup` as text content. -/
def decodeHtml (markup : String) : String :=
  ⟨decodeChars 0 markup.data⟩

/-! ## Rendering -/

/-- The constant `scoreClass` of `createScoreDisplay`: the tier of a score. -/
def scoreClass (score : ℚ) : String :=
  if score ≥ 9 then "score-high" else if score ≥ 7 then "score-mid" else "score-low"

/-- The function `createScoreDisplay(score)`. -/
def createScoreDisplay (P : Platform) (score : ℚ) : String :=
  "<div class=\"album-score " ++ scoreClass score ++ "\">\n            <span class=\"score-value\">"
    ++ P.numberToString score
    ++ "</span>\n            <span class=\"score-max\">/10</span>\n        </div>"

/-- The optional note paragraph of a card: present when `album.note` is a
non-empty string. -/
def noteMarkup (note : Option String) : String :=
  match note with
  | none => ""
  | some n =>
    if n = "" then "" else "<p class=\"album-note\">\"" ++ escapeHtml n ++ "\"</p>"

/-- The function `createAlbumCard(album, index)`: the markup assigned to `card.innerHTML`.
The index only sets the delay of the fade-in animation, which is not part of
the model. -/
def createAlbumCard (P : Platform) (album : Album) (_index : Nat) : String :=
  "\n            <div class=\"album-info\">\n                <h3 class=\"album-title\">"
    ++ escapeHtml album.title
    ++ "</h3>\n                <p class=\"album-artist\">"
    ++ escapeHtml album.artist
    ++ "</p>\n                <div class=\"album-meta\">\n                    <span class=\"album-year\">"
    ++ P.numberToString (album.year : ℚ)
    ++ "</span>\n                    <span class=\"album-genre\">"
    ++ escapeHtml album.genre
    ++ "</span>\n                </div>\n            </div>\n            "
    ++ createScoreDisplay P album.score
    ++ "\n            "
    ++ noteMarkup album.note
    ++ "\n        "

/-- The `forEach` loop of `renderAlbums`: cards are appended in order until an
entry is `null`, where `createAlbumCard` throws. -/
def appendCards (P : Platform) : List Entry → Nat → List String × Completion
  | [], _ => ([], Completion.normal)
  | none :: _, _ => ([], Completion.thrown)
  | some a :: l, i =>
    let rest := appendCards P l (i + 1)
    (createAlbumCard P a i :: rest.1, rest.2)

/-- The function `renderAlbums()`. -/
def renderAlbums (P : Platform) (s : Page) : Run :=
  let count := s.filteredAlbums.length
  let total := s.albumsData.length
  let text :=
    if count = total then "Showing all " ++ toString total ++ " albums"
    else "Showing " ++ toString count ++ " of " ++ toString total ++ " albums"
  if count = 0 then
    ⟨{ s with cards := [], countText := text, emptyHidden := false, listHidden := true },
      Completion.normal⟩
  else
    let appended := appendCards P s.filteredAlbums 0
    ⟨{ s with cards := appended.1, countText := text, emptyHidden := true, listHidden := false },
      appended.2⟩

/-! ## Sorting -/

/-- The value of `sortBy`: `elements.sortSelect?.value || 'score'`. -/
def sortKey (sortValue : Option String) : String :=
  match sortValue with
  | none => "score"
  | some v => if v = "" then "score" else v

/-- The comparator passed to `filteredAlbums.sort`. -/
def compareAlbums (P : Platform) (sortBy : String) (a b : Album) : ℚ :=
  if sortBy = "score" then
    if b.score - a.score ≠ 0 then b.score - a.score
    else (P.localeCompare a.title b.title : ℚ)
  else if sortBy = "title" then (P.localeCompare a.title b.title : ℚ)
  else if sortBy = "artist" then (P.localeCompare a.artist b.artist : ℚ)
  else if sortBy = "year" then ((b.year - a.year : Int) : ℚ)
  else 0

/-- Whether the comparator reads a property of its arguments for this key. -/
def readsAlbum (sortBy : String) : Bool :=
  sortBy = "score" || sortBy = "title" || sortBy = "artist" || sortBy = "year"

/-- The call `filteredAlbums.sort(...)` inside `sortAndRenderAlbums`; `none` when the
comparator throws.  With one of the four keys the comparator reads a property
of both arguments, so it throws when it is called on a `null` entry, which
happens as soon as the array has two or more entries; with any other key it
returns `0` without looking at them. -/
def sortEntries (P : Platform) (sortBy : String) (l : List Entry) : Option (List Entry) :=
  if readsAlbum sortBy then
    match allAlbums l with
    | some as => some ((arraySort (compareAlbums P sortBy) as).map some)
    | none => if l.length < 2 then some l else none
  else some (arraySort (fun _ _ => 0) l)

/-- The function `sortAndRenderAlbums()`.  An exception of the comparator leaves the array
as it was (the sorted order is written back only on completion) and skips the
rendering. -/
def sortAndRenderAlbums (P : Platform) (s : Page) : Run :=
  match sortEntries P (sortKey s.sortValue) s.filteredAlbums with
  | some sorted => renderAlbums P { s with filteredAlbums := sorted }
  | none => ⟨s, Completion.thrown⟩

/-! ## Filtering -/

/-- The callback of `albumsData.filter` in `filterAlbums`; `none` when it
throws.  `!query || …` and `!genre || …` short-circuit, so a `null` entry is
only dereferenced when the query or the genre is not empty. -/
def matchesEntry (P : Platform) (query genre : String) : Entry → Option Bool
  | some album =>
    let matchesSearch := query = "" || includes (P.toLowerCase album.title) query
      || includes (P.toLowerCase album.artist) query
    let matchesGenre := genre = "" || album.genre = genre
    some (matchesSearch && matchesGenre)
  | none => if query = "" ∧ genre = "" then some true else none

/-- The call `albumsData.filter(callback)`; `none` when the callback throws. -/
def filterEntries (P : Platform) (query genre : String) : List Entry → Option (List Entry)
  | [] => some []
  | e :: l =>
    match matchesEntry P query genre e with
    | none => none
    | some keep =>
      match filterEntries P query genre l with
      | none => none
      | some rest => some (if keep then e :: rest else rest)

/-- The function `filterAlbums()`. -/
def filterAlbums (P : Platform) (s : Page) : Run :=
  let query := P.trim (P.toLowerCase s.searchValue)
  let genre := s.genreValue
  match filterEntries P query genre s.albumsData with
  | none => ⟨s, Completion.thrown⟩
  | some visible =>
    let r := sortAndRenderAlbums P { s with filteredAlbums := visible }
    match r.completion with
    | Completion.thrown => r
    | Completion.normal =>
      ⟨{ r.page with genreBorderColor := if genre = "" then "" else "var(--color-purple)" },
        Completion.normal⟩

/-! ## Loading -/

/-- The function `populateGenreFilter()`: throws on a `null` entry before any option is
appended. -/
def populateGenreFilter (s : Page) : Run :=
  match allAlbums s.albumsData with
  | none => ⟨s, Completion.thrown⟩
  | some as =>
    let genres := arraySort defaultCompare (newSet (as.map (fun a => a.genre)))
    ⟨{ s with genreOptions := s.genreOptions ++ genres }, Completion.normal⟩

/-- What the retrieval of `data/albums.json` yields. -/
inductive FetchOutcome where
  /-- The promise returned by `fetch` is rejected. -/
  | rejected
  /-- A response arrives and `response.ok` is false. -/
  | notOk
  /-- The promise `response.json()` is rejected: the body is not JSON. -/
  | notJson
  /-- The body parses to an array with these elements. -/
  | parsed (payload : List Entry)
deriving DecidableEq

/-- The text shown when loading fails. -/
def loadErrorText : String := "Error loading albums."

/-- The function `fetchAlbums()`, given the outcome of the retrieval. -/
def fetchAlbums (P : Platform) (outcome : FetchOutcome) (s : Page) : Run :=
  match outcome with
  | FetchOutcome.parsed payload =>
    let s1 := { s with albumsData := payload, filteredAlbums := payload }
    let r1 := populateGenreFilter s1
    match r1.completion with
    | Completion.thrown => ⟨{ r1.page with countText := loadErrorText }, Completion.normal⟩
    | Completion.normal =>
      let r2 := sortAndRenderAlbums P r1.page
      match r2.completion with
      | Completion.thrown => ⟨{ r2.page with countText := loadErrorText }, Completion.normal⟩
      | Completion.normal => r2
  | _ => ⟨{ s with countText := loadErrorText }, Completion.normal⟩

/-! ## Input controller: timers, `debounce` and the listeners of `init` -/

/-- A timer created by `setTimeout` that has neither fired nor been cleared. -/
structure Timer where
  handle : Nat
  due : Nat
deriving DecidableEq

/-- The page together with the clock (in milliseconds), the timers, and the
variable `timeout` captured by the function that `debounce` returned.
`passes` is a log, kept for the statements below, of the time and the search
text of each call the debounce timer made to `filterAlbums`. -/
structure Sys where
  page : Page
  now : Nat
  /-- The variable `timeout` of the closure; `none` is `undefined`. -/
  timeout : Option Nat
  /-- The handle the next `setTimeout` returns. -/
  nextHandle : Nat
  pending : List Timer
  passes : List (Nat × String)
deriving DecidableEq

/-- The delay given to `debounce` in `init`. -/
def debounceWait : Nat := 200

/-- The call `clearTimeout(handle)`: a handle that is `undefined`, has fired or was
already cleared removes nothing. -/
def clearTimeout (handle : Option Nat) (pending : List Timer) : List Timer :=
  pending.filter (fun t => decide (some t.handle ≠ handle))

/-- The function returned by `debounce(filterAlbums, wait)`: it clears the
timer stored in `timeout` and stores a new one due `wait` ms from now. -/
def debounce (wait : Nat) (s : Sys) : Sys :=
  { s with
    pending := clearTimeout s.timeout s.pending ++ [⟨s.nextHandle, s.now + wait⟩]
    timeout := some s.nextHandle
    nextHandle := s.nextHandle + 1 }

/-- The callback of the debounce timer, run at the time the timer is due:
`filterAlbums` reads the search field as it is at that time.  An exception
thrown by the callback is reported by the browser and not propagated. -/
def fireTimer (P : Platform) (s : Sys) (t : Timer) : Sys :=
  { s with
    page := (filterAlbums P s.page).page
    now := max s.now t.due
    passes := s.passes ++ [(max s.now t.due, s.page.searchValue)] }

/-- Let `d` ms pass without input: the timers due by then fire, earliest
first, and are no longer pending. -/
def elapse (P : Platform) (d : Nat) (s : Sys) : Sys :=
  let dueNow := s.pending.filter (fun t => decide (t.due ≤ s.now + d))
  let later := s.pending.filter (fun t => decide (¬ t.due ≤ s.now + d))
  let fired := (arraySort (fun a b : Timer => (a.due : ℚ) - (b.due : ℚ)) dueNow).foldl
    (fireTimer P) s
  { fired with now := s.now + d, pending := later }

/-- The events `init` listens to, each carrying the value the control has when
the listener runs. -/
inductive Event where
  /-- An `input` event on the search field, which now holds `text`. -/
  | input (text : String)
  /-- A `change` event on the genre select, whose value is now `genre`. -/
  | genreChange (genre : String)
  /-- A `change` event on the sort select, whose value is now `key`. -/
  | sortChange (key : String)
  /-- A `keydown` event on the search field with `e.key = key`. -/
  | keydown (key : String)
deriving DecidableEq

/-- The listener `init` registered for the event, run on the current state. -/
def dispatch (P : Platform) (e : Event) (s : Sys) : Sys × Completion :=
  match e with
  | Event.input text =>
    (debounce debounceWait { s with page := { s.page with searchValue := text } },
      Completion.normal)
  | Event.genreChange genre =>
    let r := filterAlbums P { s.page with genreValue := genre }
    ({ s with page := r.page }, r.completion)
  | Event.sortChange key =>
    let r := sortAndRenderAlbums P { s.page with sortValue := some key }
    ({ s with page := r.page }, r.completion)
  | Event.keydown key =>
    if key = "Escape" then
      let r := filterAlbums P { s.page with searchValue := "" }
      ({ s with page := r.page }, r.completion)
    else (s, Completion.normal)

/-- One step of a session: `gap` ms pass, then the event is handled. -/
def step (P : Platform) (s : Sys) (x : Nat × Event) : Sys :=
  (dispatch P x.2 (elapse P x.1 s)).1

/-- A session: the events in order, each `gap` ms after the previous one. -/
def session (P : Platform) (s : Sys) (xs : List (Nat × Event)) : Sys :=
  xs.foldl (step P) s

/-- The state in which `init` leaves the system before the retrieval
completes: empty catalog, no timer. -/
def boot (page : Page) : Sys :=
  { page := { page with albumsData := [], filteredAlbums := [] }
    now := 0
    timeout := none
    nextHandle := 0
    pending := []
    passes := [] }

/-! ## A reference platform -/

/-- Removal of leading blanks. -/
def trimStart (cs : List Char) : List Char :=
  cs.dropWhile (fun c => c = ' ' || c = '\t' || c = '\n' || c = '\r')

/-- Decimal digits of `num / den` after the point, for as long as a remainder
is left and at most `fuel` of them. -/
def fractionDigits : Nat → Nat → Nat → List Char
  | 0, _, _ => []
  | fuel + 1, num, den =>
    if num = 0 then []
    else Nat.digitChar (num * 10 / den) :: fractionDigits fuel (num * 10 % den) den

/-- Decimal rendering of a rational. -/
def renderNumber (q : ℚ) : String :=
  let whole := q.num.natAbs / q.den
  let frac := fractionDigits 17 (q.num.natAbs % q.den) q.den
  (if q < 0 then "-" else "") ++ toString whole ++ (if frac = [] then "" else "." ++ String.mk frac)

/-- An executable platform: ASCII lower-casing, trimming of ASCII blanks,
comparison by code point, decimal rendering. -/
def Platform.reference : Platform where
  toLowerCase := fun s => ⟨s.data.map Char.toLower⟩
  trim := fun s => ⟨(trimStart (trimStart s.data).reverse).reverse⟩
  localeCompare := fun a b => if a < b then -1 else if a = b then 0 else 1
  numberToString := renderNumber

/-- A page as the browser shows it before the script has run. -/
def blankPage : Page where
  albumsData := []
  filteredAlbums := []
  searchValue := ""
  genreValue := ""
  sortValue := some "score"
  genreOptions := []
  genreBorderColor := ""
  countText := "Loading albums..."
  listHidden := false
  emptyHidden := true
  cards := []

/-- The two album catalog used in the examples. -/
def albumA : Album := ⟨"A", "X", 2020, "Rock", 9.5, none⟩

/-- The second album of the example catalog. -/
def albumB : Album := ⟨"B", "Y", 2019, "Jazz", 6, none⟩

/-- A self-titled album. -/
def weezerBlue : Album := ⟨"Weezer", "Weezer", 1994, "Rock", 9, none⟩

/-- Another album of the same title and score. -/
def weezerGreen : Album := ⟨"Weezer", "Weezer", 2001, "Rock", 9, none⟩

/-! ## States and inputs used in the statements -/

/-- The state between the keystrokes of a burst: exactly one timer is pending,
it is the one stored in `timeout` and it is due `debounceWait` ms from now; no
pass has run since the burst began and only the search text has changed. -/
def Armed (page0 : Page) (passes0 : List (Nat × String)) (text : String) (s : Sys) : Prop :=
  s.pending = [⟨s.nextHandle - 1, s.now + debounceWait⟩] ∧
  s.timeout = some (s.nextHandle - 1) ∧
  s.passes = passes0 ∧
  s.page = { page0 with searchValue := text }

/-- The keystrokes of a burst as events: each stores its text in the field. -/
def keystrokes (xs : List (Nat × String)) : List (Nat × Event) :=
  xs.map (fun x => (x.1, Event.input x.2))

/-- The system after a load that failed because the fetch was rejected. -/
def afterFailedLoad : Sys :=
  { boot blankPage with
    page := (fetchAlbums Platform.reference FetchOutcome.rejected (boot blankPage).page).page }

/-! ## Lemmas on the sort -/

section SortLemmas

variable {α : Type} (cmp : α → α → ℚ)

theorem insertSorted_perm (a : α) (l : List α) : (insertSorted cmp a l).Perm (a :: l) := by
  induction l with
  | nil => exact List.Perm.refl _
  | cons b l ih =>
    simp only [insertSorted]
    split
    · exact List.Perm.refl _
    · exact (List.Perm.cons b ih).trans (List.Perm.swap a b l)

theorem arraySort_perm (l : List α) : (arraySort cmp l).Perm l := by
  induction l with
  | nil => exact List.Perm.refl _
  | cons a l ih =>
    simp only [arraySort]
    exact (insertSorted_perm cmp a _).trans (List.Perm.cons a ih)

theorem insertSorted_pairwise
    (htot : ∀ x y, ¬ cmp x y ≤ 0 → cmp y x ≤ 0)
    (htr : ∀ x y z, cmp x y ≤ 0 → cmp y z ≤ 0 → cmp x z ≤ 0)
    (a : α) (l : List α) (h : l.Pairwise (fun x y => cmp x y ≤ 0)) :
    (insertSorted cmp a l).Pairwise (fun x y => cmp x y ≤ 0) := by
  induction l with
  | nil => simp [insertSorted]
  | cons b l ih =>
    obtain ⟨hb, hl⟩ := List.pairwise_cons.mp h
    simp only [insertSorted]
    split
    · rename_i hab
      refine List.pairwise_cons.mpr ⟨?_, h⟩
      intro y hy
      rcases List.mem_cons.mp hy with rfl | hy
      · exact hab
      · exact htr _ _ _ hab (hb y hy)
    · rename_i hab
      refine List.pairwise_cons.mpr ⟨?_, ih hl⟩
      intro y hy
      rcases List.mem_cons.mp ((insertSorted_perm cmp a l).mem_iff.mp hy) with rfl | hy
      · exact htot _ _ hab
      · exact hb y hy

theorem arraySort_pairwise
    (htot : ∀ x y, ¬ cmp x y ≤ 0 → cmp y x ≤ 0)
    (htr : ∀ x y z, cmp x y ≤ 0 → cmp y z ≤ 0 → cmp x z ≤ 0)
    (l : List α) : (arraySort cmp l).Pairwise (fun x y => cmp x y ≤ 0) := by
  induction l with
  | nil => simp [arraySort]
  | cons a l ih =>
    simp only [arraySort]
    exact insertSorted_pairwise cmp htot htr a _ ih

theorem insertSorted_filter (p : α → Bool)
    (hp : ∀ x y, p x = true → p y = true → cmp x y ≤ 0) (a : α) (l : List α) :
    (insertSorted cmp a l).filter p = (a :: l).filter p := by
  induction l with
  | nil => simp [insertSorted]
  | cons b l ih =>
    simp only [insertSorted]
    split
    · rfl
    · rename_i hab
      cases hpa : p a with
      | false =>
        rw [List.filter_cons, ih]
        simp [List.filter_cons, hpa]
      | true =>
        have hpb : p b = false := by
          cases hpb : p b with
          | false => rfl
          | true => exact absurd (hp a b hpa hpb) hab
        rw [List.filter_cons, ih]
        simp [List.filter_cons, hpa, hpb]

theorem arraySort_filter (p : α → Bool)
    (hp : ∀ x y, p x = true → p y = true → cmp x y ≤ 0) (l : List α) :
    (arraySort cmp l).filter p = l.filter p := by
  induction l with
  | nil => rfl
  | cons a l ih =>
    simp only [arraySort]
    rw [insertSorted_filter cmp p hp, List.filter_cons, List.filter_cons, ih]

theorem arraySort_const_zero (l : List α) : arraySort (fun _ _ => (0 : ℚ)) l = l := by
  induction l with
  | nil => rfl
  | cons a l ih =>
    simp only [arraySort, ih]
    cases l <;> simp [insertSorted]

end SortLemmas

theorem allAlbums_map_some (l : List Album) : allAlbums (l.map some) = some l := by
  induction l with
  | nil => rfl
  | cons a l ih => simp [allAlbums, ih]

theorem appendCards_map_some (P : Platform) (l : List Album) (i : Nat) :
    (appendCards P (l.map some) i).2 = Completion.normal := by
  induction l generalizing i with
  | nil => rfl
  | cons a l ih => simp [appendCards, ih]

theorem renderAlbums_filteredAlbums (P : Platform) (s : Page) :
    (renderAlbums P s).page.filteredAlbums = s.filteredAlbums ∧
      (renderAlbums P s).page.albumsData = s.albumsData := by
  unfold renderAlbums
  simp only
  split <;> exact ⟨rfl, rfl⟩

theorem renderAlbums_normal (P : Platform) (s : Page) (l : List Album)
    (h : s.filteredAlbums = l.map some) : (renderAlbums P s).completion = Completion.normal := by
  unfold renderAlbums
  simp only
  split
  · rfl
  · simp only [h]
    exact appendCards_map_some P l 0

theorem sortAndRenderAlbums_of_albums (P : Platform) (s : Page) (visible : List Album)
    (key : String) (hkey : readsAlbum key = true) (hs : s.filteredAlbums = visible.map some)
    (hk : sortKey s.sortValue = key) :
    sortAndRenderAlbums P s =
      renderAlbums P { s with
        filteredAlbums := (arraySort (compareAlbums P key) visible).map some } := by
  simp [sortAndRenderAlbums, sortEntries, hk, hkey, hs, allAlbums_map_some]

theorem compareAlbums_year (P : Platform) (a b : Album) :
    compareAlbums P "year" a b ≤ 0 ↔ b.year ≤ a.year := by
  have h : compareAlbums P "year" a b = ((b.year - a.year : Int) : ℚ) := by
    simp [compareAlbums]
  rw [h]
  constructor
  · intro h0
    have h1 : (b.year - a.year : Int) ≤ 0 := by exact_mod_cast h0
    omega
  · intro h0
    have h1 : (b.year - a.year : Int) ≤ 0 := by omega
    exact_mod_cast h1

/-- C8: with the sort key `year`, `sortAndRenderAlbums` leaves a permutation of
the Visible Set whose years are in non-increasing order, and the albums of each
year appear in the order they had before (the sort is stable); no error is
raised. -/
theorem sortAndRenderAlbums_year (P : Platform) (s : Page) (visible : List Album) :
    ∃ sorted : List Album,
      (sortAndRenderAlbums P
        { s with filteredAlbums := visible.map some, sortValue := some "year" }).page.filteredAlbums
          = sorted.map some ∧
      (sortAndRenderAlbums P
        { s with filteredAlbums := visible.map some, sortValue := some "year" }).completion
          = Completion.normal ∧
      sorted.Perm visible ∧
      sorted.Pairwise (fun a b => a.year ≥ b.year) ∧
      ∀ y : Int, sorted.filter (fun a => decide (a.year = y))
        = visible.filter (fun a => decide (a.year = y)) := by
  refine ⟨arraySort (compareAlbums P "year") visible, ?_, ?_, ?_, ?_, ?_⟩
  · rw [sortAndRenderAlbums_of_albums P _ visible "year" (by decide) rfl (by simp [sortKey])]
    exact (renderAlbums_filteredAlbums P _).1
  · rw [sortAndRenderAlbums_of_albums P _ visible "year" (by decide) rfl (by simp [sortKey])]
    exact renderAlbums_normal P _ _ rfl
  · exact arraySort_perm _ _
  · have h := arraySort_pairwise (compareAlbums P "year")
      (fun x y hxy => by
        rw [compareAlbums_year] at hxy ⊢
        omega)
      (fun x y z hxy hyz => by
        rw [compareAlbums_year] at hxy hyz ⊢
        omega) visible
    exact h.imp (fun {a b} hab => (compareAlbums_year P a b).mp hab)
  · intro y
    apply arraySort_filter
    intro a b ha hb
    rw [compareAlbums_year]
    simp only [decide_eq_true_eq] at ha hb
    omega

theorem digitChar_ne_a (m : Nat) : Nat.digitChar (m % 10) ≠ 'a' := by
  have h : m % 10 < 10 := Nat.mod_lt _ (by decide)
  revert h
  generalize m % 10 = d
  intro h
  interval_cases d <;> decide

theorem toDigitsCore_head (fuel n : Nat) (ds : List Char) :
    ∃ m rest, Nat.toDigitsCore 10 (fuel + 1) n ds = Nat.digitChar (m % 10) :: rest := by
  induction fuel generalizing n ds with
  | zero =>
    refine ⟨n, ds, ?_⟩
    simp [Nat.toDigitsCore]
  | succ fuel ih =>
    rw [Nat.toDigitsCore]
    split
    · exact ⟨n, ds, rfl⟩
    · exact ih _ _

theorem toString_head (n : Nat) :
    ∃ c rest, (toString n).data = c :: rest ∧ c ≠ 'a' := by
  obtain ⟨m, rest, h⟩ := toDigitsCore_head n n []
  refine ⟨Nat.digitChar (m % 10), rest, ?_, digitChar_ne_a m⟩
  show (Nat.repr n).data = _
  simp only [Nat.repr, Nat.toDigits, List.asString]
  exact h

theorem showing_ne (k n : Nat) :
    "Showing " ++ toString k ++ " of " ++ toString n ++ " albums"
      ≠ "Showing all " ++ toString n ++ " albums" := by
  obtain ⟨c, rest, hc, hne⟩ := toString_head k
  intro h
  have h2 := congrArg String.data h
  simp only [String.data_append, hc] at h2
  have h3 : ("Showing ".data ++ c :: rest ++ " of ".data ++ (toString n).data ++ " albums".data)[8]?
      = ("Showing all ".data ++ (toString n).data ++ " albums".data)[8]? := by rw [h2]
  simp at h3
  exact hne h3

/-- C4: `renderAlbums` sets the count text to "Showing all N albums" exactly
when the Visible Set has the size N of the Catalog, and to
"Showing K of N albums" otherwise; for N = 2 this gives "Showing all 2 albums"
with K = 2 and "Showing 1 of 2 albums" with K = 1. -/
theorem renderAlbums_countText (P : Platform) (s : Page) :
    ((renderAlbums P s).page.countText
        = "Showing all " ++ toString s.albumsData.length ++ " albums"
      ↔ s.filteredAlbums.length = s.albumsData.length) ∧
    (s.filteredAlbums.length ≠ s.albumsData.length →
      (renderAlbums P s).page.countText
        = "Showing " ++ toString s.filteredAlbums.length ++ " of "
          ++ toString s.albumsData.length ++ " albums") ∧
    (renderAlbums P { blankPage with
        albumsData := [some albumA, some albumB],
        filteredAlbums := [some albumA, some albumB] }).page.countText
      = "Showing all 2 albums" ∧
    (renderAlbums P { blankPage with
        albumsData := [some albumA, some albumB],
        filteredAlbums := [some albumB] }).page.countText
      = "Showing 1 of 2 albums" := by
  have htext : (renderAlbums P s).page.countText =
      if s.filteredAlbums.length = s.albumsData.length then
        "Showing all " ++ toString s.albumsData.length ++ " albums"
      else "Showing " ++ toString s.filteredAlbums.length ++ " of "
          ++ toString s.albumsData.length ++ " albums" := by
    unfold renderAlbums
    simp only
    split <;> rfl
  refine ⟨?_, ?_, ?_, ?_⟩
  · rw [htext]
    constructor
    · intro h
      by_contra hne
      rw [if_neg hne] at h
      exact showing_ne _ _ h
    · intro h
      rw [if_pos h]
  · intro hne
    rw [htext, if_neg hne]
  · simp [renderAlbums, blankPage]
    decide
  · simp [renderAlbums, blankPage]
    decide

/-- C5 (as the code has it): a sort selection that is neither empty nor one of
`score`, `title`, `artist`, `year` leaves the Visible Set in the order it had
and raises no error; an empty selection is replaced by `score`. -/
theorem sortAndRenderAlbums_unknown_key (P : Platform) (s : Page) (visible : List Album)
    (key : String) (hkey : key ∉ ["", "score", "title", "artist", "year"]) :
    (sortAndRenderAlbums P
      { s with filteredAlbums := visible.map some, sortValue := some key }).page.filteredAlbums
        = visible.map some ∧
    (sortAndRenderAlbums P
      { s with filteredAlbums := visible.map some, sortValue := some key }).completion
        = Completion.normal ∧
    (sortAndRenderAlbums P
      { s with filteredAlbums := visible.map some, sortValue := some "" }).page.filteredAlbums
        = (sortAndRenderAlbums P
      { s with filteredAlbums := visible.map some, sortValue := some "score" }).page.filteredAlbums := by
  simp only [List.mem_cons, List.mem_singleton, List.not_mem_nil, or_false, not_or] at hkey
  obtain ⟨h0, h1, h2, h3, h4⟩ := hkey
  have hk : sortKey (some key) = key := by simp [sortKey, h0]
  have hr : readsAlbum key = false := by simp [readsAlbum, h1, h2, h3, h4]
  have hrun : sortAndRenderAlbums P
      { s with filteredAlbums := visible.map some, sortValue := some key }
      = renderAlbums P { s with filteredAlbums := visible.map some, sortValue := some key } := by
    simp [sortAndRenderAlbums, sortEntries, hk, hr, arraySort_const_zero]
  refine ⟨?_, ?_, ?_⟩
  · rw [hrun]
    exact (renderAlbums_filteredAlbums P _).1
  · rw [hrun]
    exact renderAlbums_normal P _ visible rfl
  · rw [sortAndRenderAlbums_of_albums P _ visible "score" (by decide) rfl (by simp [sortKey]),
      sortAndRenderAlbums_of_albums P _ visible "score" (by decide) rfl (by simp [sortKey])]
    rw [(renderAlbums_filteredAlbums P _).1, (renderAlbums_filteredAlbums P _).1]

/-- The selection `rating` is none of the four keys and leaves `[B, A]` as it is. -/
theorem sortAndRenderAlbums_unknown_key_witness :
    "rating" ∉ ["", "score", "title", "artist", "year"] ∧
    (sortAndRenderAlbums Platform.reference
      { blankPage with filteredAlbums := [albumB, albumA].map some,
                       sortValue := some "rating" }).page.filteredAlbums
        = [albumB, albumA].map some :=
  ⟨by decide,
    (sortAndRenderAlbums_unknown_key Platform.reference blankPage [albumB, albumA] "rating"
      (by decide)).1⟩

/-- C5, counterexample: with the empty string as sort selection the Visible
Set `[B(6), A(9.5)]` does not keep its order: it is sorted by score. -/
theorem sortAndRenderAlbums_empty_key_reorders :
    "" ∉ ["score", "title", "artist", "year"] ∧
    (sortAndRenderAlbums Platform.reference
      { blankPage with filteredAlbums := [some albumB, some albumA],
                       sortValue := some "" }).page.filteredAlbums
        = [some albumA, some albumB] ∧
    (sortAndRenderAlbums Platform.reference
      { blankPage with filteredAlbums := [some albumB, some albumA],
                       sortValue := some "" }).page.filteredAlbums
        ≠ [some albumB, some albumA] := by
  have h : (sortAndRenderAlbums Platform.reference
      { blankPage with filteredAlbums := [some albumB, some albumA],
                       sortValue := some "" }).page.filteredAlbums
        = [some albumA, some albumB] := by
    rw [sortAndRenderAlbums_of_albums Platform.reference _ [albumB, albumA] "score" (by decide)
      rfl (by simp [sortKey])]
    rw [(renderAlbums_filteredAlbums _ _).1]
    simp only [arraySort, insertSorted, compareAlbums, albumA, albumB]
    norm_num
  refine ⟨by decide, h, ?_⟩
  rw [h]
  decide

theorem sortAndRenderAlbums_albums_perm (P : Platform) (s : Page) (visible : List Album)
    (hs : s.filteredAlbums = visible.map some) :
    ∃ sorted : List Album, sorted.Perm visible ∧
      sortAndRenderAlbums P s = renderAlbums P { s with filteredAlbums := sorted.map some } := by
  by_cases hr : readsAlbum (sortKey s.sortValue) = true
  · exact ⟨arraySort (compareAlbums P (sortKey s.sortValue)) visible, arraySort_perm _ _,
      sortAndRenderAlbums_of_albums P s visible _ hr hs rfl⟩
  · refine ⟨visible, List.Perm.refl _, ?_⟩
    simp [sortAndRenderAlbums, sortEntries, hr, arraySort_const_zero, hs]

theorem filterEntries_map_some (P : Platform) (query genre : String) (catalog : List Album) :
    filterEntries P query genre (catalog.map some) =
      some ((catalog.filter (fun album =>
        (decide (query = "") || includes (P.toLowerCase album.title) query
          || includes (P.toLowerCase album.artist) query)
        && (decide (genre = "") || decide (album.genre = genre)))).map some) := by
  induction catalog with
  | nil => rfl
  | cons a l ih =>
    simp only [List.map_cons, filterEntries, matchesEntry, ih, List.filter_cons]
    split <;> simp_all

/-- C1: on every Catalog, `filterAlbums` makes the Visible Set consist of
exactly the albums of the Catalog for which (1) the lowercased and trimmed
search text is empty or a substring of the lowercased title or artist and (2)
the selected genre is empty or equal to the genre of the album; each such album
is kept as often as it occurs in the Catalog and nothing else appears (the
Visible Set is a permutation of the filtered Catalog).  On the
catalog `[A, B]` the query "b" gives `[B]` and the genre "Jazz" gives `[B]`. -/
theorem filterAlbums_visible (P : Platform) (s : Page) (catalog : List Album) :
    (∃ visible : List Album,
      (filterAlbums P { s with albumsData := catalog.map some }).page.filteredAlbums
        = visible.map some ∧
      (filterAlbums P { s with albumsData := catalog.map some }).completion = Completion.normal ∧
      (∀ a : Album, a ∈ visible ↔
        a ∈ catalog ∧
        (P.trim (P.toLowerCase s.searchValue) = "" ∨
          (P.trim (P.toLowerCase s.searchValue)).data <:+: (P.toLowerCase a.title).data ∨
          (P.trim (P.toLowerCase s.searchValue)).data <:+: (P.toLowerCase a.artist).data) ∧
        (s.genreValue = "" ∨ a.genre = s.genreValue)) ∧
      visible.Perm (catalog.filter (fun a => decide (
        (P.trim (P.toLowerCase s.searchValue) = "" ∨
          (P.trim (P.toLowerCase s.searchValue)).data <:+: (P.toLowerCase a.title).data ∨
          (P.trim (P.toLowerCase s.searchValue)).data <:+: (P.toLowerCase a.artist).data) ∧
        (s.genreValue = "" ∨ a.genre = s.genreValue))))) ∧
    (filterAlbums Platform.reference
      { blankPage with albumsData := [some albumA, some albumB],
                       searchValue := "b" }).page.filteredAlbums = [some albumB] ∧
    (filterAlbums Platform.reference
      { blankPage with albumsData := [some albumA, some albumB],
                       genreValue := "Jazz" }).page.filteredAlbums = [some albumB] := by
  refine ⟨?_, by decide, by decide⟩
  obtain ⟨sorted, hperm, hrun⟩ := sortAndRenderAlbums_albums_perm P
    { s with
      albumsData := catalog.map some
      filteredAlbums := (catalog.filter (fun album =>
        (decide (P.trim (P.toLowerCase s.searchValue) = "")
          || includes (P.toLowerCase album.title) (P.trim (P.toLowerCase s.searchValue))
          || includes (P.toLowerCase album.artist) (P.trim (P.toLowerCase s.searchValue)))
        && (decide (s.genreValue = "") || decide (album.genre = s.genreValue)))).map some }
    _ rfl
  have hnormal := renderAlbums_normal P _ sorted
    (show ({ ({ s with
      albumsData := catalog.map some
      filteredAlbums := (catalog.filter (fun album =>
        (decide (P.trim (P.toLowerCase s.searchValue) = "")
          || includes (P.toLowerCase album.title) (P.trim (P.toLowerCase s.searchValue))
          || includes (P.toLowerCase album.artist) (P.trim (P.toLowerCase s.searchValue)))
        && (decide (s.genreValue = "") || decide (album.genre = s.genreValue)))).map some } : Page)
      with filteredAlbums := sorted.map some } : Page).filteredAlbums = sorted.map some from rfl)
  have hfa := (renderAlbums_filteredAlbums P ({ ({ s with
      albumsData := catalog.map some
      filteredAlbums := (catalog.filter (fun album =>
        (decide (P.trim (P.toLowerCase s.searchValue) = "")
          || includes (P.toLowerCase album.title) (P.trim (P.toLowerCase s.searchValue))
          || includes (P.toLowerCase album.artist) (P.trim (P.toLowerCase s.searchValue)))
        && (decide (s.genreValue = "") || decide (album.genre = s.genreValue)))).map some } : Page)
      with filteredAlbums := sorted.map some } : Page)).1
  refine ⟨sorted, ?_, ?_, ?_, ?_⟩
  · simp only [filterAlbums, filterEntries_map_some, hrun, hnormal, hfa]
  · simp only [filterAlbums, filterEntries_map_some, hrun, hnormal]
  · intro a
    rw [hperm.mem_iff, List.mem_filter]
    simp [includes, or_assoc]
  · refine hperm.trans (List.Perm.of_eq (List.filter_congr ?_))
    intro a _
    simp [includes, Bool.or_assoc]

theorem compareAlbums_score (P : Platform) (a b : Album) :
    compareAlbums P "score" a b ≤ 0 ↔
      b.score < a.score ∨ (b.score = a.score ∧ P.localeCompare a.title b.title ≤ 0) := by
  simp only [compareAlbums, if_true]
  by_cases h : b.score - a.score = 0
  · have he : b.score = a.score := by linarith
    simp [he]
  · rw [if_pos h]
    constructor
    · intro h0
      left
      rcases lt_or_eq_of_le h0 with h1 | h1
      · linarith
      · exact absurd h1 h
    · rintro (h1 | ⟨h1, -⟩)
      · linarith
      · rw [h1, sub_self] at h
        exact absurd rfl h

theorem compareAlbums_score_total (P : Platform)
    (hanti : ∀ x y, P.localeCompare x y < 0 ↔ 0 < P.localeCompare y x) (a b : Album)
    (h : ¬ compareAlbums P "score" a b ≤ 0) : compareAlbums P "score" b a ≤ 0 := by
  rw [compareAlbums_score] at h ⊢
  simp only [not_or, not_and, not_lt, not_le] at h
  obtain ⟨h1, h2⟩ := h
  rcases lt_or_eq_of_le h1 with h3 | h3
  · exact Or.inl h3
  · exact Or.inr ⟨h3, le_of_lt ((hanti _ _).mpr (h2 h3.symm))⟩

theorem compareAlbums_score_trans (P : Platform)
    (htrans : ∀ x y z, P.localeCompare x y ≤ 0 → P.localeCompare y z ≤ 0 →
      P.localeCompare x z ≤ 0) (a b c : Album)
    (hab : compareAlbums P "score" a b ≤ 0) (hbc : compareAlbums P "score" b c ≤ 0) :
    compareAlbums P "score" a c ≤ 0 := by
  rw [compareAlbums_score] at hab hbc ⊢
  rcases hab with h1 | ⟨h1, h2⟩ <;> rcases hbc with h3 | ⟨h3, h4⟩
  · exact Or.inl (lt_trans h3 h1)
  · exact Or.inl (h3 ▸ h1)
  · exact Or.inl (h1 ▸ h3)
  · exact Or.inr ⟨h3.trans h1, htrans _ _ _ h2 h4⟩

theorem reference_localeCompare_neg (x y : String) :
    Platform.reference.localeCompare x y < 0 ↔ x < y := by
  simp only [Platform.reference]
  split_ifs with h1 h2
  · simp [h1]
  · simp [h1]
  · simp [h1]

theorem reference_localeCompare_pos (x y : String) :
    0 < Platform.reference.localeCompare x y ↔ y < x := by
  simp only [Platform.reference]
  split_ifs with h1 h2
  · simp [not_lt_of_lt h1]
  · simp [h2]
  · have h3 : y < x := lt_of_le_of_ne (not_lt.mp h1) (fun h => h2 h.symm)
    simp [h3]

theorem reference_anti (x y : String) :
    Platform.reference.localeCompare x y < 0 ↔ 0 < Platform.reference.localeCompare y x := by
  rw [reference_localeCompare_neg, reference_localeCompare_pos]

theorem reference_trans (x y z : String)
    (hxy : Platform.reference.localeCompare x y ≤ 0)
    (hyz : Platform.reference.localeCompare y z ≤ 0) :
    Platform.reference.localeCompare x z ≤ 0 := by
  rw [← not_lt, reference_localeCompare_pos, not_lt] at hxy hyz ⊢
  exact le_trans hxy hyz

/-- C2 (as the code has it): with the sort key `score`, for albums `a` before
`b` in the output, `a.score > b.score`, or the scores are equal and
`a.title` is not after `b.title` in the order of `localeCompare`; conversely
two albums in that relation which are not tied in both score and title appear
in that order; albums tied in both keep the order they had.  `[A(9.5), B(6)]`
stays as it is. -/
theorem sortAndRenderAlbums_score (P : Platform)
    (hanti : ∀ x y, P.localeCompare x y < 0 ↔ 0 < P.localeCompare y x)
    (htrans : ∀ x y z, P.localeCompare x y ≤ 0 → P.localeCompare y z ≤ 0 →
      P.localeCompare x z ≤ 0)
    (s : Page) (visible : List Album) :
    (∃ sorted : List Album,
      (sortAndRenderAlbums P
        { s with filteredAlbums := visible.map some, sortValue := some "score" }).page.filteredAlbums
          = sorted.map some ∧
      sorted.Perm visible ∧
      (∀ (i j : Nat) (a b : Album), sorted[i]? = some a → sorted[j]? = some b → i < j →
        a.score > b.score ∨ (a.score = b.score ∧ P.localeCompare a.title b.title ≤ 0)) ∧
      (∀ (i j : Nat) (a b : Album), sorted[i]? = some a → sorted[j]? = some b →
        ¬ (a.score = b.score ∧ P.localeCompare a.title b.title = 0) →
        a.score > b.score ∨ (a.score = b.score ∧ P.localeCompare a.title b.title ≤ 0) →
        i < j) ∧
      (∀ c : Album,
        sorted.filter (fun a =>
            decide (a.score = c.score ∧ P.localeCompare a.title c.title = 0))
          = visible.filter (fun a =>
            decide (a.score = c.score ∧ P.localeCompare a.title c.title = 0)))) ∧
    (sortAndRenderAlbums P
      { blankPage with filteredAlbums := [some albumA, some albumB],
                       sortValue := some "score" }).page.filteredAlbums
        = [some albumA, some albumB] := by
  have hzero : ∀ x y, P.localeCompare x y = 0 → P.localeCompare y x ≤ 0 := by
    intro x y h
    by_contra hc
    have := (hanti x y).mpr (not_le.mp hc)
    omega
  have hsorted := arraySort_pairwise (compareAlbums P "score")
    (compareAlbums_score_total P hanti) (compareAlbums_score_trans P htrans) visible
  have hidx := List.pairwise_iff_getElem.mp hsorted
  have hfwd : ∀ (i j : Nat) (a b : Album),
      (arraySort (compareAlbums P "score") visible)[i]? = some a →
      (arraySort (compareAlbums P "score") visible)[j]? = some b → i < j →
      a.score > b.score ∨ (a.score = b.score ∧ P.localeCompare a.title b.title ≤ 0) := by
    intro i j a b hi hj hij
    obtain ⟨hi1, hi2⟩ := List.getElem?_eq_some.mp hi
    obtain ⟨hj1, hj2⟩ := List.getElem?_eq_some.mp hj
    have h := hidx i j hi1 hj1 hij
    rw [hi2, hj2, compareAlbums_score] at h
    rcases h with h | ⟨h1, h2⟩
    · exact Or.inl h
    · exact Or.inr ⟨h1.symm, h2⟩
  refine ⟨⟨arraySort (compareAlbums P "score") visible, ?_, arraySort_perm _ _, hfwd, ?_, ?_⟩, ?_⟩
  · rw [sortAndRenderAlbums_of_albums P _ visible "score" (by decide) rfl (by simp [sortKey])]
    exact (renderAlbums_filteredAlbums P _).1
  · intro i j a b hi hj htie hrel
    by_contra hij
    rcases Nat.lt_or_eq_of_le (not_lt.mp hij) with hji | hji
    · have hback := hfwd j i b a hj hi hji
      rcases hrel with h1 | ⟨h1, h2⟩ <;> rcases hback with h3 | ⟨h3, h4⟩
      · exact absurd h1 (not_lt_of_lt h3)
      · rw [h3] at h1
        exact lt_irrefl _ h1
      · rw [h1] at h3
        exact lt_irrefl _ h3
      · apply htie
        refine ⟨h1, ?_⟩
        rcases lt_or_eq_of_le h2 with h5 | h5
        · have := (hanti _ _).mp h5
          omega
        · exact h5
    · subst hji
      rw [hi] at hj
      cases hj
      apply htie
      refine ⟨rfl, ?_⟩
      rcases hrel with h1 | ⟨-, h2⟩
      · exact absurd h1 (lt_irrefl _)
      · rcases lt_or_eq_of_le h2 with h5 | h5
        · have := (hanti _ _).mp h5
          omega
        · exact h5
  · intro c
    apply arraySort_filter
    intro x y hx hy
    simp only [decide_eq_true_eq] at hx hy
    rw [compareAlbums_score]
    exact Or.inr ⟨hy.1.trans hx.1.symm,
      htrans _ _ _ (le_of_eq hx.2) (hzero _ _ hy.2)⟩
  · rw [sortAndRenderAlbums_of_albums P _ [albumA, albumB] "score" (by decide) rfl
      (by simp [sortKey])]
    rw [(renderAlbums_filteredAlbums _ _).1]
    simp only [arraySort, insertSorted, compareAlbums, albumA, albumB]
    norm_num

/-- Comparison by code point is a consistent `localeCompare`, and with it
`[B(6), A(9.5)]` is sorted by score into a permutation of itself. -/
theorem sortAndRenderAlbums_score_witness :
    (∀ x y, Platform.reference.localeCompare x y < 0 ↔
      0 < Platform.reference.localeCompare y x) ∧
    (∀ x y z, Platform.reference.localeCompare x y ≤ 0 →
      Platform.reference.localeCompare y z ≤ 0 → Platform.reference.localeCompare x z ≤ 0) ∧
    ∃ sorted : List Album,
      (sortAndRenderAlbums Platform.reference
        { blankPage with filteredAlbums := [albumB, albumA].map some,
                         sortValue := some "score" }).page.filteredAlbums = sorted.map some ∧
      sorted.Perm [albumB, albumA] :=
  ⟨reference_anti, reference_trans,
    (sortAndRenderAlbums_score Platform.reference reference_anti reference_trans
      blankPage [albumB, albumA]).1.imp (fun _ h => ⟨h.1, h.2.1⟩)⟩

/-- C2, counterexample: two albums of the same title and score are both in the
relation "higher score, or equal score and title not greater" to each other,
yet only one of them appears before the other. -/
theorem sortAndRenderAlbums_score_iff_fails :
    (sortAndRenderAlbums Platform.reference
      { blankPage with filteredAlbums := [some weezerBlue, some weezerGreen],
                       sortValue := some "score" }).page.filteredAlbums
        = [some weezerBlue, some weezerGreen] ∧
    ¬ (∀ (i j : Nat) (a b : Album),
        (sortAndRenderAlbums Platform.reference
          { blankPage with filteredAlbums := [some weezerBlue, some weezerGreen],
                           sortValue := some "score" }).page.filteredAlbums[i]?
            = some (some a) →
        (sortAndRenderAlbums Platform.reference
          { blankPage with filteredAlbums := [some weezerBlue, some weezerGreen],
                           sortValue := some "score" }).page.filteredAlbums[j]?
            = some (some b) →
        (i < j ↔ a.score > b.score ∨ (a.score = b.score ∧ a.title ≤ b.title))) := by
  have hout : (sortAndRenderAlbums Platform.reference
      { blankPage with filteredAlbums := [some weezerBlue, some weezerGreen],
                       sortValue := some "score" }).page.filteredAlbums
        = [some weezerBlue, some weezerGreen] := by
    rw [sortAndRenderAlbums_of_albums Platform.reference _ [weezerBlue, weezerGreen] "score"
      (by decide) rfl (by simp [sortKey])]
    rw [(renderAlbums_filteredAlbums _ _).1]
    simp only [arraySort, insertSorted, compareAlbums, weezerBlue, weezerGreen]
    norm_num [Platform.reference]
  refine ⟨hout, ?_⟩
  rw [hout]
  intro h
  have h10 := (h 1 0 weezerGreen weezerBlue rfl rfl).mpr
    (Or.inr ⟨rfl, le_refl _⟩)
  omega

theorem allAlbums_append_none (pre post : List Entry) :
    allAlbums (pre ++ none :: post) = none := by
  induction pre with
  | nil => rfl
  | cons e pre ih =>
    cases e with
    | none => rfl
    | some a => simp [allAlbums, ih]

/-- C3 (as the code has it): when the fetch is rejected, the status is not a
success or the body is not JSON, `fetchAlbums` leaves the Catalog empty, shows
the error message as count text and lets no exception escape; when the body
parses to an array with a `null` element, it also shows the error message and
lets no exception escape, but `albumsData` and `filteredAlbums` keep the
parsed payload. -/
theorem fetchAlbums_failure (P : Platform) (s : Page) (pre post : List Entry) :
    ((fetchAlbums P FetchOutcome.rejected
        { s with albumsData := [], filteredAlbums := [] }).page.albumsData = [] ∧
      (fetchAlbums P FetchOutcome.rejected
        { s with albumsData := [], filteredAlbums := [] }).page.countText = loadErrorText ∧
      (fetchAlbums P FetchOutcome.rejected
        { s with albumsData := [], filteredAlbums := [] }).completion = Completion.normal) ∧
    ((fetchAlbums P FetchOutcome.notOk
        { s with albumsData := [], filteredAlbums := [] }).page.albumsData = [] ∧
      (fetchAlbums P FetchOutcome.notOk
        { s with albumsData := [], filteredAlbums := [] }).page.countText = loadErrorText ∧
      (fetchAlbums P FetchOutcome.notOk
        { s with albumsData := [], filteredAlbums := [] }).completion = Completion.normal) ∧
    ((fetchAlbums P FetchOutcome.notJson
        { s with albumsData := [], filteredAlbums := [] }).page.albumsData = [] ∧
      (fetchAlbums P FetchOutcome.notJson
        { s with albumsData := [], filteredAlbums := [] }).page.countText = loadErrorText ∧
      (fetchAlbums P FetchOutcome.notJson
        { s with albumsData := [], filteredAlbums := [] }).completion = Completion.normal) ∧
    ((fetchAlbums P (FetchOutcome.parsed (pre ++ none :: post))
        { s with albumsData := [], filteredAlbums := [] }).page.albumsData
          = pre ++ none :: post ∧
      (fetchAlbums P (FetchOutcome.parsed (pre ++ none :: post))
        { s with albumsData := [], filteredAlbums := [] }).page.filteredAlbums
          = pre ++ none :: post ∧
      (fetchAlbums P (FetchOutcome.parsed (pre ++ none :: post))
        { s with albumsData := [], filteredAlbums := [] }).page.countText = loadErrorText ∧
      (fetchAlbums P (FetchOutcome.parsed (pre ++ none :: post))
        { s with albumsData := [], filteredAlbums := [] }).completion = Completion.normal) := by
  refine ⟨⟨rfl, rfl, rfl⟩, ⟨rfl, rfl, rfl⟩, ⟨rfl, rfl, rfl⟩, ?_⟩
  simp [fetchAlbums, populateGenreFilter, allAlbums_append_none]

/-- C3, counterexample: the body `[null]` parses, is not an array of album
records, and makes the load fail with the error message shown; afterwards the
Catalog is not empty: `albumsData` is `[null]`. -/
theorem fetchAlbums_keeps_malformed_payload :
    allAlbums [none] = none ∧
    (fetchAlbums Platform.reference (FetchOutcome.parsed [none]) blankPage).page.countText
      = loadErrorText ∧
    (fetchAlbums Platform.reference (FetchOutcome.parsed [none]) blankPage).page.albumsData
      = [none] ∧
    (fetchAlbums Platform.reference (FetchOutcome.parsed [none]) blankPage).page.albumsData
      ≠ [] := by
  decide

theorem escapeChar_no_angle (c : Char) : '<' ∉ escapeChar c ∧ '>' ∉ escapeChar c := by
  unfold escapeChar
  split_ifs with h1 h2 h3 h4
  · decide
  · decide
  · decide
  · decide
  · simp only [List.mem_singleton]
    exact ⟨fun h => h2 h.symm, fun h => h3 h.symm⟩

theorem escapeHtml_no_angle (t : String) :
    '<' ∉ (escapeHtml t).data ∧ '>' ∉ (escapeHtml t).data := by
  simp only [escapeHtml, List.mem_flatten, List.mem_map, not_exists, not_and]
  constructor
  · rintro l ⟨c, -, rfl⟩
    exact (escapeChar_no_angle c).1
  · rintro l ⟨c, -, rfl⟩
    exact (escapeChar_no_angle c).2

theorem decodeChars_escapeChar (c : Char) (r : List Char) :
    decodeChars 0 (escapeChar c ++ r) = c :: decodeChars 0 r := by
  unfold escapeChar
  split_ifs with h1 h2 h3 h4
  · subst h1
    simp [decodeChars]
  · subst h2
    simp [decodeChars]
  · subst h3
    simp [decodeChars]
  · subst h4
    simp [decodeChars]
  · simp [decodeChars, h1]

theorem decodeChars_escape (cs : List Char) :
    decodeChars 0 (cs.map escapeChar).flatten = cs := by
  induction cs with
  | nil => rfl
  | cons c cs ih =>
    rw [List.map_cons, List.flatten_cons, decodeChars_escapeChar, ih]

theorem decodeHtml_escapeHtml (t : String) : decodeHtml (escapeHtml t) = t := by
  simp [decodeHtml, escapeHtml, decodeChars_escape]

theorem noteMarkup_count (note : Option String) :
    (noteMarkup note).data.count '<' = (if note = none ∨ note = some "" then 0 else 2) ∧
    (noteMarkup note).data.count '>' = (if note = none ∨ note = some "" then 0 else 2) := by
  cases note with
  | none => simp [noteMarkup]
  | some n =>
    by_cases h : n = ""
    · simp [noteMarkup, h]
    · have h1 := List.count_eq_zero_of_not_mem (escapeHtml_no_angle n).1
      have h2 := List.count_eq_zero_of_not_mem (escapeHtml_no_angle n).2
      simp only [noteMarkup, h, if_false, String.data_append, List.count_append, h1, h2]
      simp [h]

theorem scoreClass_count (q : ℚ) (c : Char) (h : c = '<' ∨ c = '>') :
    List.count c (scoreClass q).data = 0 := by
  unfold scoreClass
  rcases h with rfl | rfl <;> split_ifs <;> decide

theorem createAlbumCard_data (P : Platform) (album : Album) (index : Nat) :
    (createAlbumCard P album index).data =
      "\n            <div class=\"album-info\">\n                <h3 class=\"album-title\">".data
        ++ (escapeHtml album.title).data
        ++ "</h3>\n                <p class=\"album-artist\">".data
        ++ (escapeHtml album.artist).data
        ++ "</p>\n                <div class=\"album-meta\">\n                    <span class=\"album-year\">".data
        ++ (P.numberToString (album.year : ℚ)).data
        ++ "</span>\n                    <span class=\"album-genre\">".data
        ++ (escapeHtml album.genre).data
        ++ "</span>\n                </div>\n            </div>\n            ".data
        ++ ("<div class=\"album-score ".data ++ (scoreClass album.score).data
          ++ "\">\n            <span class=\"score-value\">".data
          ++ (P.numberToString album.score).data
          ++ "</span>\n            <span class=\"score-max\">/10</span>\n        </div>".data)
        ++ "\n            ".data
        ++ (noteMarkup album.note).data
        ++ "\n        ".data := by
  rw [createAlbumCard, createScoreDisplay]
  repeat rw [String.data_append]

theorem createAlbumCard_count (P : Platform) (album : Album) (index : Nat) :
    (createAlbumCard P album index).data.count '<'
      = 18 + (if album.note = none ∨ album.note = some "" then 0 else 2)
        + (P.numberToString (album.year : ℚ)).data.count '<'
        + (P.numberToString album.score).data.count '<' ∧
    (createAlbumCard P album index).data.count '>'
      = 18 + (if album.note = none ∨ album.note = some "" then 0 else 2)
        + (P.numberToString (album.year : ℚ)).data.count '>'
        + (P.numberToString album.score).data.count '>' := by
  have ht := escapeHtml_no_angle album.title
  have ha := escapeHtml_no_angle album.artist
  have hg := escapeHtml_no_angle album.genre
  have hn := noteMarkup_count album.note
  constructor
  · rw [createAlbumCard_data]
    repeat rw [List.count_append]
    rw [List.count_eq_zero_of_not_mem ht.1, List.count_eq_zero_of_not_mem ha.1,
      List.count_eq_zero_of_not_mem hg.1, hn.1, scoreClass_count album.score '<' (Or.inl rfl)]
    rw [show List.count '<' ("\n            <div class=\"album-info\">\n                <h3 class=\"album-title\">" : String).data = 2 from by decide]
    rw [show List.count '<' ("</h3>\n                <p class=\"album-artist\">" : String).data = 2 from by decide]
    rw [show List.count '<' ("</p>\n                <div class=\"album-meta\">\n                    <span class=\"album-year\">" : String).data = 3 from by decide]
    rw [show List.count '<' ("</span>\n                    <span class=\"album-genre\">" : String).data = 2 from by decide]
    rw [show List.count '<' ("</span>\n                </div>\n            </div>\n            " : String).data = 3 from by decide]
    rw [show List.count '<' ("\n            " : String).data = 0 from by decide]
    rw [show List.count '<' ("\n        " : String).data = 0 from by decide]
    rw [show List.count '<' ("<div class=\"album-score " : String).data = 1 from by decide]
    rw [show List.count '<' ("\">\n            <span class=\"score-value\">" : String).data = 1 from by decide]
    rw [show List.count '<' ("</span>\n            <span class=\"score-max\">/10</span>\n        </div>" : String).data = 4 from by decide]
    omega
  · rw [createAlbumCard_data]
    repeat rw [List.count_append]
    rw [List.count_eq_zero_of_not_mem ht.2, List.count_eq_zero_of_not_mem ha.2,
      List.count_eq_zero_of_not_mem hg.2, hn.2, scoreClass_count album.score '>' (Or.inr rfl)]
    rw [show List.count '>' ("\n            <div class=\"album-info\">\n                <h3 class=\"album-title\">" : String).data = 2 from by decide]
    rw [show List.count '>' ("</h3>\n                <p class=\"album-artist\">" : String).data = 2 from by decide]
    rw [show List.count '>' ("</p>\n                <div class=\"album-meta\">\n                    <span class=\"album-year\">" : String).data = 3 from by decide]
    rw [show List.count '>' ("</span>\n                    <span class=\"album-genre\">" : String).data = 2 from by decide]
    rw [show List.count '>' ("</span>\n                </div>\n            </div>\n            " : String).data = 3 from by decide]
    rw [show List.count '>' ("\n            " : String).data = 0 from by decide]
    rw [show List.count '>' ("\n        " : String).data = 0 from by decide]
    rw [show List.count '>' ("<div class=\"album-score " : String).data = 0 from by decide]
    rw [show List.count '>' ("\">\n            <span class=\"score-value\">" : String).data = 2 from by decide]
    rw [show List.count '>' ("</span>\n            <span class=\"score-max\">/10</span>\n        </div>" : String).data = 4 from by decide]
    omega

theorem createAlbumCard_contains (P : Platform) (album : Album) (index : Nat) :
    ("<h3 class=\"album-title\">" ++ escapeHtml album.title ++ "</h3>").data
      <:+: (createAlbumCard P album index).data ∧
    ("<p class=\"album-artist\">" ++ escapeHtml album.artist ++ "</p>").data
      <:+: (createAlbumCard P album index).data ∧
    ("<span class=\"album-genre\">" ++ escapeHtml album.genre ++ "</span>").data
      <:+: (createAlbumCard P album index).data ∧
    (noteMarkup album.note).data <:+: (createAlbumCard P album index).data := by
  refine ⟨?_, ?_, ?_, ?_⟩
  · refine ⟨"\n            <div class=\"album-info\">\n                ".data,
      ("\n                <p class=\"album-artist\">"
        ++ escapeHtml album.artist
        ++ "</p>\n                <div class=\"album-meta\">\n                    <span class=\"album-year\">"
        ++ P.numberToString (album.year : ℚ)
        ++ "</span>\n                    <span class=\"album-genre\">"
        ++ escapeHtml album.genre
        ++ "</span>\n                </div>\n            </div>\n            "
        ++ createScoreDisplay P album.score
        ++ "\n            "
        ++ noteMarkup album.note
        ++ "\n        ").data, ?_⟩
    simp only [createAlbumCard, String.data_append, List.append_assoc]
    rfl
  · refine ⟨("\n            <div class=\"album-info\">\n                <h3 class=\"album-title\">"
        ++ escapeHtml album.title
        ++ "</h3>\n                ").data,
      ("\n                <div class=\"album-meta\">\n                    <span class=\"album-year\">"
        ++ P.numberToString (album.year : ℚ)
        ++ "</span>\n                    <span class=\"album-genre\">"
        ++ escapeHtml album.genre
        ++ "</span>\n                </div>\n            </div>\n            "
        ++ createScoreDisplay P album.score
        ++ "\n            "
        ++ noteMarkup album.note
        ++ "\n        ").data, ?_⟩
    simp only [createAlbumCard, String.data_append, List.append_assoc]
    rfl
  · refine ⟨("\n            <div class=\"album-info\">\n                <h3 class=\"album-title\">"
        ++ escapeHtml album.title
        ++ "</h3>\n                <p class=\"album-artist\">"
        ++ escapeHtml album.artist
        ++ "</p>\n                <div class=\"album-meta\">\n                    <span class=\"album-year\">"
        ++ P.numberToString (album.year : ℚ)
        ++ "</span>\n                    ").data,
      ("\n                </div>\n            </div>\n            "
        ++ createScoreDisplay P album.score
        ++ "\n            "
        ++ noteMarkup album.note
        ++ "\n        ").data, ?_⟩
    simp only [createAlbumCard, String.data_append, List.append_assoc]
    rfl
  · refine ⟨("\n            <div class=\"album-info\">\n                <h3 class=\"album-title\">"
        ++ escapeHtml album.title
        ++ "</h3>\n                <p class=\"album-artist\">"
        ++ escapeHtml album.artist
        ++ "</p>\n                <div class=\"album-meta\">\n                    <span class=\"album-year\">"
        ++ P.numberToString (album.year : ℚ)
        ++ "</span>\n                    <span class=\"album-genre\">"
        ++ escapeHtml album.genre
        ++ "</span>\n                </div>\n            </div>\n            "
        ++ createScoreDisplay P album.score
        ++ "\n            ").data, "\n        ".data, ?_⟩
    simp only [createAlbumCard, String.data_append, List.append_assoc]

/-- C6: the markup of a card contains the title, the artist, the genre and the
note only as `escapeHtml` of them; the number of `<` and of `>` in the markup
does not depend on these fields, so none of their characters opens or closes a
tag; `escapeHtml t` contains neither `<` nor `>` and decodes back to `t`; the
title `<script>` appears as `&lt;script&gt;`. -/
theorem createAlbumCard_escapes (P : Platform) (album : Album) (index : Nat) :
    (("<h3 class=\"album-title\">" ++ escapeHtml album.title ++ "</h3>").data
        <:+: (createAlbumCard P album index).data ∧
      ("<p class=\"album-artist\">" ++ escapeHtml album.artist ++ "</p>").data
        <:+: (createAlbumCard P album index).data ∧
      ("<span class=\"album-genre\">" ++ escapeHtml album.genre ++ "</span>").data
        <:+: (createAlbumCard P album index).data ∧
      (noteMarkup album.note).data <:+: (createAlbumCard P album index).data) ∧
    (∀ n : String, noteMarkup (some n)
      = if n = "" then "" else "<p class=\"album-note\">\"" ++ escapeHtml n ++ "\"</p>") ∧
    ((createAlbumCard P album index).data.count '<'
        = 18 + (if album.note = none ∨ album.note = some "" then 0 else 2)
          + (P.numberToString (album.year : ℚ)).data.count '<'
          + (P.numberToString album.score).data.count '<' ∧
      (createAlbumCard P album index).data.count '>'
        = 18 + (if album.note = none ∨ album.note = some "" then 0 else 2)
          + (P.numberToString (album.year : ℚ)).data.count '>'
          + (P.numberToString album.score).data.count '>') ∧
    (∀ t : String, '<' ∉ (escapeHtml t).data ∧ '>' ∉ (escapeHtml t).data ∧
      decodeHtml (escapeHtml t) = t) ∧
    escapeHtml "<script>" = "&lt;script&gt;" ∧
    ("<h3 class=\"album-title\">&lt;script&gt;</h3>").data
      <:+: (createAlbumCard P { album with title := "<script>" } index).data := by
  refine ⟨createAlbumCard_contains P album index, fun n => rfl, createAlbumCard_count P album index,
    fun t => ⟨(escapeHtml_no_angle t).1, (escapeHtml_no_angle t).2, decodeHtml_escapeHtml t⟩,
    by decide, ?_⟩
  have h := (createAlbumCard_contains P { album with title := "<script>" } index).1
  have he : escapeHtml "<script>" = "&lt;script&gt;" := by decide
  rw [he] at h
  exact h

theorem sortAndRenderAlbums_empty (P : Platform) (s : Page)
    (hdata : s.albumsData = []) (hvis : s.filteredAlbums = []) :
    sortAndRenderAlbums P s =
      ⟨{ s with cards := [], countText := "Showing all 0 albums", emptyHidden := false,
                listHidden := true }, Completion.normal⟩ := by
  have h0 : "Showing all " ++ toString (0 : Nat) ++ " albums" = "Showing all 0 albums" := by
    decide
  have hsort : sortEntries P (sortKey s.sortValue) [] = some [] := by
    unfold sortEntries
    split <;> rfl
  cases s
  simp only at hdata hvis
  subst hdata hvis
  simp [sortAndRenderAlbums, hsort, renderAlbums, h0]

theorem filterAlbums_empty (P : Platform) (s : Page)
    (hdata : s.albumsData = []) (hvis : s.filteredAlbums = []) :
    filterAlbums P s =
      ⟨{ s with cards := [], countText := "Showing all 0 albums", emptyHidden := false,
                listHidden := true,
                genreBorderColor := if s.genreValue = "" then "" else "var(--color-purple)" },
        Completion.normal⟩ := by
  cases s
  simp only at hdata hvis
  subst hdata hvis
  simp [filterAlbums, filterEntries, sortAndRenderAlbums_empty]

theorem foldl_fireTimer_empty (P : Platform) (ts : List Timer) (s : Sys)
    (hdata : s.page.albumsData = []) (hvis : s.page.filteredAlbums = []) :
    (ts.foldl (fireTimer P) s).page.albumsData = [] ∧
      (ts.foldl (fireTimer P) s).page.filteredAlbums = [] := by
  induction ts generalizing s with
  | nil => exact ⟨hdata, hvis⟩
  | cons t ts ih =>
    rw [List.foldl_cons]
    apply ih
    · simp [fireTimer, filterAlbums_empty P s.page hdata hvis, hdata]
    · simp [fireTimer, filterAlbums_empty P s.page hdata hvis, hvis]

/-- C9 (as the code has it): while the Catalog is empty (before the load
completes, or after a load that failed and left it empty) no event raises an
error and the Visible Set stays empty; a text input only stores the text and
restarts the debounce timer, a key other than Escape changes nothing; but a
genre change, a sort change, Escape and the debounce timer when it fires each
run a render pass that sets the count text to "Showing all 0 albums", hides
the list container and shows the empty-state placeholder. -/
theorem dispatch_on_empty_catalog (P : Platform) (s : Sys) (e : Event)
    (hdata : s.page.albumsData = []) (hvis : s.page.filteredAlbums = []) :
    (dispatch P e s).2 = Completion.normal ∧
    (dispatch P e s).1.page.albumsData = [] ∧
    (dispatch P e s).1.page.filteredAlbums = [] ∧
    (match e with
      | Event.input text =>
        (dispatch P e s).1.page = { s.page with searchValue := text } ∧
        (dispatch P e s).1.timeout = some s.nextHandle ∧
        ⟨s.nextHandle, s.now + debounceWait⟩ ∈ (dispatch P e s).1.pending
      | Event.keydown key =>
        if key = "Escape" then
          (dispatch P e s).1.page.searchValue = "" ∧
          (dispatch P e s).1.page.countText = "Showing all 0 albums" ∧
          (dispatch P e s).1.page.listHidden = true ∧
          (dispatch P e s).1.page.emptyHidden = false
        else (dispatch P e s).1 = s
      | _ =>
        (dispatch P e s).1.page.countText = "Showing all 0 albums" ∧
        (dispatch P e s).1.page.listHidden = true ∧
        (dispatch P e s).1.page.emptyHidden = false) ∧
    (∀ t : Timer,
      (fireTimer P s t).page.filteredAlbums = [] ∧
      (fireTimer P s t).page.countText = "Showing all 0 albums" ∧
      (fireTimer P s t).page.listHidden = true ∧
      (fireTimer P s t).page.emptyHidden = false) ∧
    (∀ d : Nat, (elapse P d s).page.albumsData = [] ∧ (elapse P d s).page.filteredAlbums = []) := by
  refine ⟨?_, ?_, ?_, ?_, ?_, ?_⟩
  · cases e with
    | input text => rfl
    | genreChange genre => simp [dispatch, filterAlbums_empty, hdata, hvis]
    | sortChange key => simp [dispatch, sortAndRenderAlbums_empty, hdata, hvis]
    | keydown key =>
      by_cases hk : key = "Escape"
      · simp [dispatch, hk, filterAlbums_empty, hdata, hvis]
      · simp [dispatch, hk]
  · cases e with
    | input text => exact hdata
    | genreChange genre => simp [dispatch, filterAlbums_empty, hdata, hvis]
    | sortChange key => simp [dispatch, sortAndRenderAlbums_empty, hdata, hvis]
    | keydown key =>
      by_cases hk : key = "Escape"
      · simp [dispatch, hk, filterAlbums_empty, hdata, hvis]
      · simp [dispatch, hk, hdata]
  · cases e with
    | input text => exact hvis
    | genreChange genre => simp [dispatch, filterAlbums_empty, hdata, hvis]
    | sortChange key => simp [dispatch, sortAndRenderAlbums_empty, hdata, hvis]
    | keydown key =>
      by_cases hk : key = "Escape"
      · simp [dispatch, hk, filterAlbums_empty, hdata, hvis]
      · simp [dispatch, hk, hvis]
  · cases e with
    | input text => simp [dispatch, debounce]
    | genreChange genre => simp [dispatch, filterAlbums_empty, hdata, hvis]
    | sortChange key => simp [dispatch, sortAndRenderAlbums_empty, hdata, hvis]
    | keydown key =>
      by_cases hk : key = "Escape"
      · simp [dispatch, hk, filterAlbums_empty, hdata, hvis]
      · simp [dispatch, hk]
  · intro t
    simp [fireTimer, filterAlbums_empty P s.page hdata hvis, hvis]
  · intro d
    exact foldl_fireTimer_empty P _ s hdata hvis

/-- Escape right after start-up: no error, and the Visible Set stays empty. -/
theorem dispatch_on_empty_catalog_witness :
    (boot blankPage).page.albumsData = [] ∧
    (boot blankPage).page.filteredAlbums = [] ∧
    (dispatch Platform.reference (Event.keydown "Escape") (boot blankPage)).2
      = Completion.normal ∧
    (dispatch Platform.reference (Event.keydown "Escape") (boot blankPage)).1.page.filteredAlbums
      = [] :=
  ⟨rfl, rfl,
    (dispatch_on_empty_catalog Platform.reference (boot blankPage) (Event.keydown "Escape")
      rfl rfl).1,
    (dispatch_on_empty_catalog Platform.reference (boot blankPage) (Event.keydown "Escape")
      rfl rfl).2.2.1⟩

/-- C9, counterexample: after a failed load the count text is the error
message; a sort change, and likewise Escape, replaces it by
"Showing all 0 albums" and shows the empty-state placeholder. -/
theorem dispatch_after_failed_load_has_effect :
    afterFailedLoad.page.countText = "Error loading albums." ∧
    afterFailedLoad.page.emptyHidden = true ∧
    (dispatch Platform.reference (Event.sortChange "title") afterFailedLoad).1.page.countText
      = "Showing all 0 albums" ∧
    (dispatch Platform.reference (Event.sortChange "title") afterFailedLoad).1.page.countText
      ≠ afterFailedLoad.page.countText ∧
    (dispatch Platform.reference (Event.keydown "Escape") afterFailedLoad).1.page.countText
      ≠ afterFailedLoad.page.countText ∧
    (dispatch Platform.reference (Event.keydown "Escape") afterFailedLoad).1.page.emptyHidden
      ≠ afterFailedLoad.page.emptyHidden := by
  decide

theorem elapse_idle (P : Platform) (d : Nat) (s : Sys) (h : s.pending = []) :
    elapse P d s = { s with now := s.now + d } := by
  simp [elapse, h, arraySort]

theorem step_input_idle (P : Platform) (s : Sys) (d : Nat) (text : String)
    (h : s.pending = []) :
    Armed s.page s.passes text (step P s (d, Event.input text)) ∧
      (step P s (d, Event.input text)).now = s.now + d := by
  simp [step, elapse_idle P d s h, dispatch, debounce, Armed, clearTimeout, h]

theorem elapse_armed_early (P : Platform) (page0 : Page) (passes0 : List (Nat × String))
    (text : String) (s : Sys) (d : Nat) (h : Armed page0 passes0 text s)
    (hd : d < debounceWait) : elapse P d s = { s with now := s.now + d } := by
  obtain ⟨hp, -, -, -⟩ := h
  simp [elapse, hp, hd, arraySort]

theorem step_input_armed (P : Platform) (page0 : Page) (passes0 : List (Nat × String))
    (text0 text : String) (s : Sys) (d : Nat) (h : Armed page0 passes0 text0 s)
    (hd : d < debounceWait) :
    Armed page0 passes0 text (step P s (d, Event.input text)) ∧
      (step P s (d, Event.input text)).now = s.now + d := by
  have he := elapse_armed_early P page0 passes0 text0 s d h hd
  obtain ⟨hp, ht, hpass, hpage⟩ := h
  simp [step, he, dispatch, debounce, Armed, clearTimeout, hp, ht, hpass, hpage]

theorem elapse_armed_quiet (P : Platform) (page0 : Page) (passes0 : List (Nat × String))
    (text : String) (s : Sys) (quiet : Nat) (h : Armed page0 passes0 text s)
    (hq : debounceWait ≤ quiet) :
    (elapse P quiet s).passes = passes0 ++ [(s.now + debounceWait, text)] ∧
    (elapse P quiet s).page = (filterAlbums P { page0 with searchValue := text }).page ∧
    (elapse P quiet s).pending = [] := by
  obtain ⟨hp, ht, hpass, hpage⟩ := h
  have h1 : s.now + debounceWait ≤ s.now + quiet := by omega
  simp [elapse, hp, h1, arraySort, insertSorted, fireTimer, hpass, hpage]

theorem elapse_pending_length (P : Platform) (d : Nat) (s : Sys) :
    (elapse P d s).pending.length ≤ s.pending.length := by
  simp only [elapse]
  exact List.length_filter_le _ _

theorem session_armed (P : Platform) (page0 : Page) (passes0 : List (Nat × String))
    (rest : List (Nat × String)) (text : String) (s : Sys)
    (h : Armed page0 passes0 text s) (hgaps : ∀ x ∈ rest, x.1 < debounceWait) :
    Armed page0 passes0 ((rest.map Prod.snd).getLastD text) (session P s (keystrokes rest)) ∧
      (session P s (keystrokes rest)).now = s.now + (rest.map Prod.fst).sum := by
  induction rest generalizing text s with
  | nil => exact ⟨h, by simp [session, keystrokes]⟩
  | cons x rest ih =>
    have hx := step_input_armed P page0 passes0 text x.2 s x.1 h
      (hgaps x (List.mem_cons_self _ _))
    have hrest := ih x.2 (step P s (x.1, Event.input x.2)) hx.1
      (fun y hy => hgaps y (List.mem_cons_of_mem _ hy))
    have hs : session P s (keystrokes (x :: rest))
        = session P (step P s (x.1, Event.input x.2)) (keystrokes rest) := by
      simp [session, keystrokes]
    rw [hs]
    refine ⟨?_, ?_⟩
    · have hl : ((x :: rest).map Prod.snd).getLastD text = (rest.map Prod.snd).getLastD x.2 := by
        cases rest <;> simp [List.getLastD]
      rw [hl]
      exact hrest.1
    · rw [hrest.2, hx.2]
      simp [Nat.add_assoc]

theorem session_take (P : Platform) (s : Sys) (first : Nat × String)
    (rest : List (Nat × String)) (hidle : s.pending = [])
    (hgaps : ∀ x ∈ rest, x.1 < debounceWait) (n : Nat) :
    ((session P s (keystrokes ((first :: rest).take n))).pending = [] ∧
        (session P s (keystrokes ((first :: rest).take n))).passes = s.passes) ∨
      ∃ text, Armed s.page s.passes text (session P s (keystrokes ((first :: rest).take n))) := by
  cases n with
  | zero => exact Or.inl ⟨hidle, rfl⟩
  | succ n =>
    right
    have h1 := (step_input_idle P s first.1 first.2 hidle).1
    have h2 := (session_armed P s.page s.passes (rest.take n) first.2 _ h1
      (fun x hx => hgaps x (List.mem_of_mem_take hx))).1
    refine ⟨((rest.take n).map Prod.snd).getLastD first.2, ?_⟩
    have hs : session P s (keystrokes ((first :: rest).take (n + 1)))
        = session P (step P s (first.1, Event.input first.2)) (keystrokes (rest.take n)) := by
      simp [session, keystrokes]
    rw [hs]
    exact h2

/-- C7: for a burst of text inputs on a system with no timer pending, in which
every input after the first comes less than 200 ms after the previous one and
which is followed by at least 200 ms without input, the debounced handler runs
`filterAlbums` exactly once, 200 ms after the last input, on the search text
of the last input; before that no pass runs, and at every moment at most one
timer is pending. -/
theorem debounce_single_pass (P : Platform) (s : Sys) (first : Nat × String)
    (rest : List (Nat × String)) (quiet : Nat)
    (hidle : s.pending = [])
    (hgaps : ∀ x ∈ rest, x.1 < debounceWait)
    (hquiet : debounceWait ≤ quiet) :
    (elapse P quiet (session P s (keystrokes (first :: rest)))).passes
      = s.passes ++ [((session P s (keystrokes (first :: rest))).now + 200,
          (rest.map Prod.snd).getLastD first.2)] ∧
    (session P s (keystrokes (first :: rest))).now
      = s.now + first.1 + (rest.map Prod.fst).sum ∧
    (elapse P quiet (session P s (keystrokes (first :: rest)))).page
      = (filterAlbums P
          { s.page with searchValue := (rest.map Prod.snd).getLastD first.2 }).page ∧
    (elapse P quiet (session P s (keystrokes (first :: rest)))).pending = [] ∧
    (∀ n d : Nat,
      (elapse P d (session P s (keystrokes ((first :: rest).take n)))).pending.length ≤ 1) ∧
    (∀ n d : Nat, d < debounceWait →
      (elapse P d (session P s (keystrokes ((first :: rest).take n)))).passes = s.passes) := by
  have h1 := step_input_idle P s first.1 first.2 hidle
  have h2 := session_armed P s.page s.passes rest first.2 _ h1.1 hgaps
  have hs : session P s (keystrokes (first :: rest))
      = session P (step P s (first.1, Event.input first.2)) (keystrokes rest) := by
    simp [session, keystrokes]
  have h3 := elapse_armed_quiet P s.page s.passes _ _ quiet h2.1 hquiet
  rw [← hs] at h2 h3
  refine ⟨h3.1, ?_, h3.2.1, h3.2.2, ?_, ?_⟩
  · rw [h2.2, h1.2]
  · intro n d
    refine le_trans (elapse_pending_length P d _) ?_
    rcases session_take P s first rest hidle hgaps n with h | ⟨text, h⟩
    · rw [h.1]
      exact Nat.zero_le _
    · rw [h.1]
      exact Nat.le_refl _
  · intro n d hd
    rcases session_take P s first rest hidle hgaps n with h | ⟨text, h⟩
    · rw [elapse_idle P d _ h.1]
      exact h.2
    · rw [elapse_armed_early P _ _ text _ d h hd]
      exact h.2.2.1

/-- Three keystrokes 50 ms apart followed by 200 ms of silence give exactly one
pass, at 300 ms, on the text "abc". -/
theorem debounce_single_pass_witness :
    (boot blankPage).pending = [] ∧
    (∀ x ∈ [(50, "ab"), (50, "abc")], x.1 < debounceWait) ∧
    debounceWait ≤ 200 ∧
    (elapse Platform.reference 200
      (session Platform.reference (boot blankPage)
        (keystrokes [(0, "a"), (50, "ab"), (50, "abc")]))).passes = [(300, "abc")] :=
  ⟨rfl, by decide, by decide,
    (debounce_single_pass Platform.reference (boot blankPage) (0, "a")
      [(50, "ab"), (50, "abc")] 200 rfl (by decide) (by decide)).1.trans (by decide)⟩

end Albums
